import Mathlib

/-!
Verification of the `doot` command-dispatch framework (src/doot/doot.py).

The Python module is modelled by a shallow embedding: registration state is
explicit, external effects (the shell, the docker state query, argparse's
parse_known_args) are oracle parameters, and observable actions (logging,
shelling out, invoking a handler) are recorded as an event trace.
-/

namespace Doot

/-- A registered command wrapper, as produced by the `command` decorator:
it carries the flags set at registration, the derived command name and the
handler's declared arity (in Python, discovered later via inspect.signature). -/
structure Wrapper where
  passthrough : Bool
  command_name : String
  hidden : Bool
  arity : Nat
deriving Repr, DecidableEq

/-- Modelled from the spec: `Config` (datatypes.py, not under src/) is a plain
attribute holder; the fields relevant here are `default_command` (unset until a
registration flags itself default) and `default_container`.  Registration state
is the `parsers` dict plus that part of the config. -/
structure RegState where
  parsers : List (String × Wrapper)
  default_command : Option Wrapper
deriving Repr, DecidableEq

/-- Lookup in a Python dict modelled as an association list. -/
def lookupCmd (ps : List (String × Wrapper)) (n : String) : Option Wrapper :=
  match ps with
  | [] => none
  | (k, w) :: rest => if k = n then some w else lookupCmd rest n

/-- Assignment `d[k] = v` in a Python dict: overwrite in place if the key
exists, else append. -/
def dictInsert (ps : List (String × Wrapper)) (k : String) (w : Wrapper) :
    List (String × Wrapper) :=
  match ps with
  | [] => [(k, w)]
  | (k', w') :: rest =>
      if k' = k then (k, w) :: rest else (k', w') :: dictInsert rest k w

/-- `func.__name__.replace("_", "-")`: the single-character replacement acts
characterwise. -/
def pyName (funcName : String) : String :=
  String.mk (funcName.toList.map fun c => if c = '_' then '-' else c)

/-- The `command` decorator (doot.py lines 24-53), applied to a handler with
declared name `funcName` and declared arity `ar`.  A second default
registration raises ValueError before the parsers dict is updated. -/
def command (funcName : String) (passthrough dflt hidden : Bool) (ar : Nat)
    (st : RegState) : Except String RegState :=
  let name := pyName funcName
  let wrapper : Wrapper := ⟨passthrough, name, hidden, ar⟩
  if dflt then
    if st.default_command.isSome then
      .error "There can only be one default command."
    else
      .ok ⟨dictInsert st.parsers name wrapper, some wrapper⟩
  else
    .ok ⟨dictInsert st.parsers name wrapper, st.default_command⟩

/-- Observable actions of the module: logging calls, the shell invocation,
the docker state query, the argparse call, printing help, and invoking a
registered handler (`none` = called with no argument, `some a` = called with
a namespace whose `args` field is `a`). -/
inductive Event where
  | logcmd (msg : String)
  | logBlank
  | loggedError (msg : String)
  | loggedInfo (msg : String)
  | calledShell (cmdline : String)
  | inspected (container : String)
  | calledParse (args : List String)
  | printedHelp
  | invoked (name : String) (argsField : Option (List String))
deriving Repr, DecidableEq

/-- The argument-quoting step of `run` (doot.py line 57): an argument
containing a space is wrapped in double quotes, all others are untouched. -/
def quoteArg (arg : String) : String :=
  if arg.toList.contains ' ' then "\"" ++ arg ++ "\"" else arg

/-- `" ".join(...) if args else ""`: `args` is falsy when it is None or the
empty list. -/
def joinedArgs (args : Option (List String)) : String :=
  match args with
  | none => ""
  | some l => if l.isEmpty then "" else String.intercalate " " (l.map quoteArg)

/-- The command line `f"{cmd} {args}"` built by `run` (doot.py line 58). -/
def runCommand (cmd : String) (args : Option (List String)) : String :=
  cmd ++ " " ++ joinedArgs args

/-- `run` (doot.py lines 56-71): builds the command line, optionally echoes
it, executes it through the shell oracle, optionally logs the status, and
returns the exit code. -/
def run (cmd : String) (args : Option (List String)) (echo logstatus : Bool)
    (shell : String → Int) : List Event × Int :=
  let cmdline := runCommand cmd args
  let code := shell cmdline
  let echoEvents := if echo then [Event.logcmd cmdline] else []
  let statusEvents :=
    if logstatus then
      Event.logBlank ::
        (if code ≠ 0 then
          [Event.loggedError ("Command exited with a non-zero exit code: " ++ toString code)]
        else
          [Event.loggedInfo "Command completed without any errors."])
    else []
  (echoEvents ++ [Event.calledShell cmdline] ++ statusEvents, code)

/-- Python's `str.strip()`: remove leading and trailing whitespace. -/
def pyStrip (s : String) : String :=
  String.mk (((s.toList.dropWhile Char.isWhitespace).reverse.dropWhile
    Char.isWhitespace).reverse)

/-- The body of `crun` once a container name is resolved (doot.py lines
83-105): query the docker state oracle (a CalledProcessError leaves `running`
false), and either log the not-running error and return the None sentinel, or
delegate to `run` with the docker-exec command line. -/
def crunResolved (cmd : String) (args : Option (List String)) (container : String)
    (echo logstatus : Bool) (inspectOut : String → Except Unit String)
    (shell : String → Int) : List Event × Option Int :=
  let running : Bool :=
    match inspectOut container with
    | .ok out => pyStrip out == "true"
    | .error _ => false
  if running then
    let r := run ("docker exec -it " ++ container ++ " " ++ cmd) args echo logstatus shell
    (Event.inspected container :: r.1, some r.2)
  else
    ([Event.inspected container,
      Event.loggedError ("The \"" ++ container ++ "\" container does not appear to be running. Try \"docker-compose up -d\".")],
     none)

/-- `crun` (doot.py lines 74-105).  `defaultContainer` is
`config.default_container`; `if not container` treats both None and the empty
string as unset.  The missing-configuration case raises (AttributeError)
before anything is queried or executed. -/
def crun (cmd : String) (args : Option (List String)) (container : Option String)
    (echo logstatus : Bool) (defaultContainer : Option String)
    (inspectOut : String → Except Unit String) (shell : String → Int) :
    Except String (List Event × Option Int) :=
  match container with
  | some c => .ok (crunResolved cmd args c echo logstatus inspectOut shell)
  | none =>
    match defaultContainer with
    | none => .error "Default container is not set, so you must pass a container name"
    | some c =>
      if c = "" then
        .error "Default container is not set, so you must pass a container name"
      else
        .ok (crunResolved cmd args c echo logstatus inspectOut shell)

/-- The options object returned by `parse_known_args`, restricted to what the
dispatcher reads: the selected handler (absent when no subcommand matched) and
the unrecognized extras. -/
structure FuncRef where
  command_name : String
  arity : Nat
deriving Repr, DecidableEq

/-- Result of the argparse oracle: the parsed options and extras. -/
structure ParseOut where
  func : Option FuncRef
  extras : List String
deriving Repr, DecidableEq

/-- How a dispatch run ends: a process exit with a code, or an uncaught
Python exception. -/
inductive Outcome where
  | exited (code : Nat)
  | crashed (msg : String)
deriving Repr, DecidableEq

/-- The try/except block of `main` (doot.py lines 157-163): look the first
argument up in the registry; on passthrough strip it; on KeyError/IndexError
fall back to the default command's name. -/
def resolveCommand (parsers : List (String × Wrapper)) (defaultName : Option String)
    (args0 : List String) : List String × Option String :=
  match args0 with
  | [] => (args0, defaultName)
  | a :: rest =>
    match lookupCmd parsers a with
    | none => (args0, defaultName)
    | some f => (if f.passthrough then rest else args0, some f.command_name)

/-- The three-way branch of `main` before structured parsing: passthrough
short-circuit (line 165), uncaught KeyError when the resolved name is not
registered, or falling through to structured dispatch with the current
argument list. -/
inductive Mode where
  | passthroughCall (w : Wrapper) (args : List String)
  | crash
  | structured (args : List String)
deriving Repr, DecidableEq

/-- Decides which branch `main` takes after command resolution (doot.py
lines 154-169).  The empty command name is falsy in `if command and ...`. -/
def dispatchMode (parsers : List (String × Wrapper)) (defaultName : Option String)
    (argv : List String) : Mode :=
  let args0 := argv.drop 1
  match resolveCommand parsers defaultName args0 with
  | (args1, none) => .structured args1
  | (args1, some c) =>
    if c = "" then .structured args1
    else
      match lookupCmd parsers c with
      | none => .crash
      | some w =>
        if w.passthrough ∧ argv.length > 1 then .passthroughCall w args1
        else .structured args1

/-- The help shortcut (doot.py lines 171-172). -/
def helpShortcut (args : List String) : List String :=
  if args = [] ∨ args = ["-h"] then ["help"] else args

/-- Structured dispatch (doot.py lines 171-195): apply the help shortcut,
call `parse_known_args` (the oracle may itself exit, as argparse does on an
invalid choice), print help and exit 1 on extras, crash if no handler was
selected (line 180 reads `options.func` unguarded), reject arity above 1 with
an error, an info message and exit 1, and otherwise invoke the handler with
the options object (whose `args` field is set to the extras) or with no
argument. -/
def structuredPhase (parse : List String → Except Nat ParseOut)
    (args1 : List String) : List Event × Outcome :=
  let args2 := helpShortcut args1
  match parse args2 with
  | .error code => ([Event.calledParse args2], .exited code)
  | .ok po =>
    if po.extras ≠ [] then
      ([Event.calledParse args2, Event.printedHelp], .exited 1)
    else
      match po.func with
      | none => ([Event.calledParse args2], .crashed "AttributeError")
      | some f =>
        if f.arity > 1 then
          ([Event.calledParse args2,
            Event.loggedError "commands must be defined take 0 or 1 arguments",
            Event.loggedInfo ("command `" ++ f.command_name ++ "` was defined to take " ++ toString f.arity ++ " arguments")],
           .exited 1)
        else if f.arity = 1 then
          ([Event.calledParse args2, Event.invoked f.command_name (some po.extras)],
           .exited 0)
        else
          ([Event.calledParse args2, Event.invoked f.command_name none], .exited 0)

/-- `main` (doot.py lines 148-195) as a whole: resolve, then either invoke
the passthrough handler with the raw remaining arguments and exit 0, crash,
or run structured dispatch.  Falling off the end of `main` is a normal exit
with code 0. -/
def main (parsers : List (String × Wrapper)) (defaultName : Option String)
    (argv : List String) (parse : List String → Except Nat ParseOut) :
    List Event × Outcome :=
  match dispatchMode parsers defaultName argv with
  | .passthroughCall w args => ([Event.invoked w.command_name (some args)], .exited 0)
  | .crash => ([], .crashed "KeyError")
  | .structured args => structuredPhase parse args

/-- Dict assignment stores the value under exactly its key. -/
theorem lookupCmd_dictInsert (ps : List (String × Wrapper)) (k : String) (w : Wrapper) :
    lookupCmd (dictInsert ps k w) k = some w := by
  induction ps with
  | nil => simp [dictInsert, lookupCmd]
  | cons p rest ih =>
    obtain ⟨k', w'⟩ := p
    by_cases h : k' = k
    · simp [dictInsert, lookupCmd, h]
    · simp [dictInsert, lookupCmd, h, ih]

/-- C2: `run` wraps every argument containing a space in double quotes, leaves
the others unchanged, joins them with single spaces, and concatenates the base
command and the joined arguments with a single space; concretely,
`run("echo", ["a b", "c"])` shells out the line `echo "a b" c`. -/
theorem run_joins_and_quotes (cmd : String) (args : List String) :
    runCommand cmd (some args) =
      cmd ++ " " ++ String.intercalate " "
        (args.map fun a => if a.toList.contains ' ' then "\"" ++ a ++ "\"" else a) ∧
    ∀ shell, Event.calledShell "echo \"a b\" c" ∈
      (run "echo" (some ["a b", "c"]) true false shell).1 := by
  constructor
  · have hq : quoteArg = fun a =>
        if a.toList.contains ' ' then "\"" ++ a ++ "\"" else a := rfl
    rw [← hq]
    cases args <;> rfl
  · intro shell
    have hev : (run "echo" (some ["a b", "c"]) true false shell).1 =
        [Event.logcmd "echo \"a b\" c", Event.calledShell "echo \"a b\" c"] := rfl
    rw [hev]
    simp

theorem run_joins_and_quotes_witness :
    runCommand "echo" (some ["a b", "c"]) = "echo \"a b\" c" ∧
    Event.calledShell "echo \"a b\" c" ∈
      (run "echo" (some ["a b", "c"]) true false (fun _ => 0)).1 :=
  ⟨(run_joins_and_quotes "echo" ["a b", "c"]).1.trans rfl,
   (run_joins_and_quotes "echo" ["a b", "c"]).2 (fun _ => 0)⟩

/-- C3: at most one registration may be flagged default: flagging default
while none is set succeeds and records the wrapper as the default; flagging
default while one is already set raises the ValueError at registration time
(the state is not returned, so the earlier default stays in place); and a
non-default registration never changes the recorded default. -/
theorem single_default_command (st : RegState) (fn : String) (pt hid : Bool) (ar : Nat) :
    (st.default_command = none →
      command fn pt true hid ar st =
        .ok ⟨dictInsert st.parsers (pyName fn) ⟨pt, pyName fn, hid, ar⟩,
             some ⟨pt, pyName fn, hid, ar⟩⟩) ∧
    (∀ w, st.default_command = some w →
      command fn pt true hid ar st = .error "There can only be one default command.") ∧
    (∀ st', command fn pt false hid ar st = .ok st' →
      st'.default_command = st.default_command) := by
  refine ⟨fun h => ?_, fun w h => ?_, fun st' h => ?_⟩
  · simp [command, h]
  · simp [command, h]
  · simp [command] at h
    rw [← h]

theorem single_default_command_witness :
    command "b" false true false 0
        ⟨[("a", ⟨false, "a", false, 0⟩)], some ⟨false, "a", false, 0⟩⟩ =
      .error "There can only be one default command." :=
  (single_default_command ⟨[("a", ⟨false, "a", false, 0⟩)], some ⟨false, "a", false, 0⟩⟩
    "b" false false 0).2.1 ⟨false, "a", false, 0⟩ rfl

/-- C9: every successful registration stores the handler in the registry under
the name obtained from the declared function name by replacing every
underscore with a hyphen (the decorator accepts no explicit-name argument, so
the derived name is always used). -/
theorem command_name_derivation (fn : String) (pt df hid : Bool) (ar : Nat)
    (st st' : RegState) (h : command fn pt df hid ar st = .ok st') :
    lookupCmd st'.parsers (pyName fn) = some ⟨pt, pyName fn, hid, ar⟩ := by
  cases df with
  | false =>
    simp [command] at h
    rw [← h]
    exact lookupCmd_dictInsert st.parsers (pyName fn) ⟨pt, pyName fn, hid, ar⟩
  | true =>
    cases hdc : st.default_command with
    | none =>
      simp [command, hdc] at h
      rw [← h]
      exact lookupCmd_dictInsert st.parsers (pyName fn) ⟨pt, pyName fn, hid, ar⟩
    | some w =>
      simp [command, hdc] at h

theorem command_name_derivation_witness :
    lookupCmd [("foo-bar", (⟨false, "foo-bar", false, 1⟩ : Wrapper))] "foo-bar" =
      some ⟨false, "foo-bar", false, 1⟩ :=
  command_name_derivation "foo_bar" false false false 1 ⟨[], none⟩
    ⟨[("foo-bar", ⟨false, "foo-bar", false, 1⟩)], none⟩ rfl

/-- C4: `crun` with no explicit container raises the AttributeError (without
querying docker or running anything — no state, no events are produced) when
the configured default is unset or empty; an explicit container argument is
always used as given; otherwise a non-empty configured default is used. -/
theorem crun_container_resolution (cmd : String) (args : Option (List String))
    (echo logstatus : Bool) (d : Option String)
    (inspectOut : String → Except Unit String) (shell : String → Int) :
    ((d = none ∨ d = some "") →
      crun cmd args none echo logstatus d inspectOut shell =
        .error "Default container is not set, so you must pass a container name") ∧
    (∀ c, crun cmd args (some c) echo logstatus d inspectOut shell =
      .ok (crunResolved cmd args c echo logstatus inspectOut shell)) ∧
    (∀ c, d = some c → c ≠ "" →
      crun cmd args none echo logstatus d inspectOut shell =
        .ok (crunResolved cmd args c echo logstatus inspectOut shell)) := by
  refine ⟨fun h => ?_, fun c => ?_, fun c hd hc => ?_⟩
  · rcases h with h | h <;> simp [crun, h]
  · simp [crun]
  · simp [crun, hd, hc]

theorem crun_container_resolution_witness :
    crun "ls" none none true false none (fun _ => .error ()) (fun _ => 0) =
      .error "Default container is not set, so you must pass a container name" :=
  (crun_container_resolution "ls" none true false none
    (fun _ => .error ()) (fun _ => 0)).1 (Or.inl rfl)

/-- C5: with a resolved container name, if the docker state query fails or its
stripped output is not the string "true", `crun`'s body logs the not-running
error and returns the `None` sentinel: no shell command is run, nothing is
raised, and a failing query is treated exactly like a not-running report. -/
theorem crun_not_running_sentinel (cmd : String) (args : Option (List String))
    (c : String) (echo logstatus : Bool)
    (inspectOut : String → Except Unit String) (shell : String → Int)
    (h : ∀ out, inspectOut c = .ok out → pyStrip out ≠ "true") :
    crunResolved cmd args c echo logstatus inspectOut shell =
      ([Event.inspected c,
        Event.loggedError ("The \"" ++ c ++ "\" container does not appear to be running. Try \"docker-compose up -d\".")],
       none) ∧
    ∀ s, Event.calledShell s ∉ (crunResolved cmd args c echo logstatus inspectOut shell).1 := by
  have hres : crunResolved cmd args c echo logstatus inspectOut shell =
      ([Event.inspected c,
        Event.loggedError ("The \"" ++ c ++ "\" container does not appear to be running. Try \"docker-compose up -d\".")],
       none) := by
    unfold crunResolved
    cases hio : inspectOut c with
    | error u => simp [hio]
    | ok out => simp [hio, h out hio]
  refine ⟨hres, fun s => ?_⟩
  rw [hres]
  simp

theorem crun_not_running_sentinel_witness :
    crunResolved "ls" none "web" true false (fun _ => .error ()) (fun _ => 0) =
      ([Event.inspected "web",
        Event.loggedError "The \"web\" container does not appear to be running. Try \"docker-compose up -d\"."],
       none) :=
  (crun_not_running_sentinel "ls" none "web" true false
    (fun _ => .error ()) (fun _ => 0) (fun out h => by cases h)).1

/-- C1: with a command named "shell" registered as passthrough, invoking the
program as `prog shell foo bar` produces exactly one handler invocation,
carrying an options object whose `args` field is `["foo", "bar"]` (the leading
command name stripped), and the process exits 0; the event trace shows no
`parse_known_args` call and no option validation. -/
theorem passthrough_shell_dispatch (parsers : List (String × Wrapper))
    (defaultName : Option String) (prog : String) (w : Wrapper)
    (parse : List String → Except Nat ParseOut)
    (hw : lookupCmd parsers "shell" = some w)
    (hpt : w.passthrough = true) (hn : w.command_name = "shell") :
    main parsers defaultName [prog, "shell", "foo", "bar"] parse =
      ([Event.invoked "shell" (some ["foo", "bar"])], .exited 0) := by
  simp [main, dispatchMode, resolveCommand, hw, hpt, hn]

theorem passthrough_shell_dispatch_witness :
    main [("shell", (⟨true, "shell", false, 1⟩ : Wrapper))] none
        ["./do", "shell", "foo", "bar"] (fun _ => .error 2) =
      ([Event.invoked "shell" (some ["foo", "bar"])], .exited 0) :=
  passthrough_shell_dispatch [("shell", ⟨true, "shell", false, 1⟩)] none "./do"
    ⟨true, "shell", false, 1⟩ (fun _ => .error 2) rfl rfl rfl

/-- C6: with no default command registered and no arguments beyond the program
name (or the single argument "-h" when that string is not a registered
command), the argument list is replaced by `["help"]`, the help command is the
one the parser selects and invokes, and the process exits 0. -/
theorem help_dispatch_on_empty_args (parsers : List (String × Wrapper))
    (prog : String) (parse : List String → Except Nat ParseOut) (f : FuncRef)
    (hp : parse ["help"] = .ok ⟨some f, []⟩)
    (hn : f.command_name = "help") (ha : f.arity = 0)
    (hh : lookupCmd parsers "-h" = none) :
    main parsers none [prog] parse =
      ([Event.calledParse ["help"], Event.invoked "help" none], .exited 0) ∧
    main parsers none [prog, "-h"] parse =
      ([Event.calledParse ["help"], Event.invoked "help" none], .exited 0) := by
  constructor <;>
    simp [main, dispatchMode, resolveCommand, structuredPhase, helpShortcut,
      hp, hn, ha, hh]

theorem help_dispatch_on_empty_args_witness :
    main [("help", (⟨false, "help", true, 0⟩ : Wrapper))] none ["./do"]
        (fun a => if a = ["help"] then .ok ⟨some ⟨"help", 0⟩, []⟩ else .error 2) =
      ([Event.calledParse ["help"], Event.invoked "help" none], .exited 0) :=
  (help_dispatch_on_empty_args [("help", ⟨false, "help", true, 0⟩)] "./do"
    (fun a => if a = ["help"] then .ok ⟨some ⟨"help", 0⟩, []⟩ else .error 2)
    ⟨"help", 0⟩ rfl rfl rfl rfl).1

/-- C7: whenever a dispatch goes through the structured phase and parsing
leaves a non-empty extras list, help is printed and the process exits with
status exactly 1, and no handler invocation appears in the trace. -/
theorem extras_usage_error (parsers : List (String × Wrapper))
    (defaultName : Option String) (argv : List String)
    (parse : List String → Except Nat ParseOut) (args1 : List String)
    (po : ParseOut)
    (hm : dispatchMode parsers defaultName argv = .structured args1)
    (hp : parse (helpShortcut args1) = .ok po)
    (hx : po.extras ≠ []) :
    main parsers defaultName argv parse =
      ([Event.calledParse (helpShortcut args1), Event.printedHelp], .exited 1) ∧
    ∀ n a, Event.invoked n a ∉ (main parsers defaultName argv parse).1 := by
  have h1 : main parsers defaultName argv parse =
      ([Event.calledParse (helpShortcut args1), Event.printedHelp], .exited 1) := by
    simp [main, hm, structuredPhase, hp, hx]
  refine ⟨h1, fun n a => ?_⟩
  rw [h1]
  simp

theorem extras_usage_error_witness :
    main [("build", (⟨false, "build", false, 1⟩ : Wrapper))] none ["./do", "build", "zzz"]
        (fun _ => .ok ⟨some ⟨"build", 1⟩, ["zzz"]⟩) =
      ([Event.calledParse ["build", "zzz"], Event.printedHelp], .exited 1) :=
  (extras_usage_error [("build", ⟨false, "build", false, 1⟩)] none
    ["./do", "build", "zzz"] (fun _ => .ok ⟨some ⟨"build", 1⟩, ["zzz"]⟩)
    ["build", "zzz"] ⟨some ⟨"build", 1⟩, ["zzz"]⟩ rfl rfl (by simp)).1

/-- C8: in a structured dispatch whose parse selected a handler and left no
extras, a declared arity above 1 logs the error and the explanatory info
message and exits with status 1 without invoking the handler, while arity 0 is
invoked with no argument and arity 1 with the parsed-options object; and the
check is only at dispatch time: registration itself succeeds for any arity. -/
theorem handler_arity_check (parsers : List (String × Wrapper))
    (defaultName : Option String) (argv : List String)
    (parse : List String → Except Nat ParseOut) (args1 : List String)
    (f : FuncRef)
    (hm : dispatchMode parsers defaultName argv = .structured args1)
    (hp : parse (helpShortcut args1) = .ok ⟨some f, []⟩) :
    (f.arity > 1 →
      main parsers defaultName argv parse =
        ([Event.calledParse (helpShortcut args1),
          Event.loggedError "commands must be defined take 0 or 1 arguments",
          Event.loggedInfo ("command `" ++ f.command_name ++ "` was defined to take "
            ++ toString f.arity ++ " arguments")],
         .exited 1)) ∧
    (f.arity = 0 →
      main parsers defaultName argv parse =
        ([Event.calledParse (helpShortcut args1),
          Event.invoked f.command_name none], .exited 0)) ∧
    (f.arity = 1 →
      main parsers defaultName argv parse =
        ([Event.calledParse (helpShortcut args1),
          Event.invoked f.command_name (some [])], .exited 0)) ∧
    (∀ fn pt hid st,
      command fn pt false hid f.arity st =
        .ok ⟨dictInsert st.parsers (pyName fn) ⟨pt, pyName fn, hid, f.arity⟩,
             st.default_command⟩) := by
  refine ⟨fun h2 => ?_, fun h0 => ?_, fun h1 => ?_, fun fn pt hid st => ?_⟩
  · simp [main, hm, structuredPhase, hp, h2, Nat.not_eq_zero_of_lt h2]
  · simp [main, hm, structuredPhase, hp, h0]
  · simp [main, hm, structuredPhase, hp, h1]
  · simp [command]

theorem handler_arity_check_witness :
    main [("sync", (⟨false, "sync", false, 2⟩ : Wrapper))] none ["./do", "sync"]
        (fun _ => .ok ⟨some ⟨"sync", 2⟩, []⟩) =
      ([Event.calledParse ["sync"],
        Event.loggedError "commands must be defined take 0 or 1 arguments",
        Event.loggedInfo "command `sync` was defined to take 2 arguments"],
       .exited 1) :=
  (handler_arity_check [("sync", ⟨false, "sync", false, 2⟩)] none ["./do", "sync"]
    (fun _ => .ok ⟨some ⟨"sync", 2⟩, []⟩) ["sync"] ⟨"sync", 2⟩ rfl rfl).1
    (by decide)

/-- C10: a handler invoked through the structured phase always receives an
options object whose `args` field is the empty list, because a non-empty
extras list terminates the process before any invocation. -/
theorem structured_handler_sees_empty_args (parsers : List (String × Wrapper))
    (defaultName : Option String) (argv : List String)
    (parse : List String → Except Nat ParseOut) (args1 : List String)
    (hm : dispatchMode parsers defaultName argv = .structured args1) :
    ∀ n a, Event.invoked n (some a) ∈ (main parsers defaultName argv parse).1 →
      a = [] := by
  intro n a hmem
  rw [show main parsers defaultName argv parse = structuredPhase parse args1 by
    simp [main, hm]] at hmem
  cases hp : parse (helpShortcut args1) with
  | error code => simp [structuredPhase, hp] at hmem
  | ok po =>
    by_cases hx : po.extras = []
    · cases hf : po.func with
      | none => simp [structuredPhase, hp, hx, hf] at hmem
      | some f =>
        by_cases h2 : f.arity > 1
        · simp [structuredPhase, hp, hx, hf, h2] at hmem
        · by_cases h1 : f.arity = 1
          · simp [structuredPhase, hp, hx, hf, h2, h1] at hmem
            exact hmem.2
          · simp [structuredPhase, hp, hx, hf, h2, h1] at hmem
    · simp [structuredPhase, hp, hx] at hmem

theorem structured_handler_sees_empty_args_witness :
    Event.invoked "deploy" (some ([] : List String)) ∈
      (main [("deploy", (⟨false, "deploy", false, 1⟩ : Wrapper))] none ["./do", "deploy"]
        (fun _ => .ok ⟨some ⟨"deploy", 1⟩, []⟩)).1 ∧
    ([] : List String) = [] :=
  ⟨by decide,
   structured_handler_sees_empty_args [("deploy", ⟨false, "deploy", false, 1⟩)] none
    ["./do", "deploy"] (fun _ => .ok ⟨some ⟨"deploy", 1⟩, []⟩) ["deploy"] rfl
    "deploy" [] (by decide)⟩

end Doot
